import Mathlib

/-!
Shallow embedding of the property_eye_backend matching/ingestion core
(src/services/fraud_detector.py, src/services/ppd_service.py,
src/services/ppd_sync_service.py, src/utils/constants.py), together with
theorems settling the specification claims about it.

Modelling conventions: dates are integers (days at day granularity, matching
the code's date-only comparisons and `timedelta(days=...)` arithmetic);
pandas/SQL nullable cells are `Option` values (NaN/NaT/None become `none`);
float scores are exact rationals, and Python's `round(x, 2)` is half-even
rounding to two decimals; raising is absent because every embedded operation
is total, mirroring the services' catch-all exception handlers.
-/

namespace PropertyEye

/-- Half-even ("banker's") rounding of a rational to an integer, the rule used
by Python's builtin `round`. -/
def roundHalfEven (q : ℚ) : ℤ :=
  if q - (⌊q⌋ : ℚ) < 1/2 then ⌊q⌋
  else if 1/2 < q - (⌊q⌋ : ℚ) then ⌊q⌋ + 1
  else if ⌊q⌋ % 2 = 0 then ⌊q⌋ else ⌊q⌋ + 1

/-- `round(x, 2)` from `_calculate_confidence_score`: round to two decimals. -/
def round2 (q : ℚ) : ℚ := (roundHalfEven (q * 100) : ℚ) / 100

/-- `FraudDetectionConfig` from src/utils/constants.py, with its defaults. -/
structure FraudDetectionConfig where
  SCAN_WINDOW_MONTHS : ℤ := 24
  MIN_CONFIDENCE_THRESHOLD : ℚ := 70
  HIGH_CONFIDENCE_THRESHOLD : ℚ := 85
  MIN_ADDRESS_SIMILARITY : ℚ := 80
  ADDRESS_SIMILARITY_WEIGHT : ℚ := 7/10
  DATE_PROXIMITY_WEIGHT : ℚ := 2/10
  POSTCODE_MATCH_WEIGHT : ℚ := 1/10

/-- The global `config` instance with all fields at their defaults. -/
def defaultConfig : FraudDetectionConfig := {}

/-- Python truthiness of an optional string: `None` and `""` are falsy. -/
def pyTruthy : Option String → Bool
  | none => false
  | some s => s != ""

/-- `PropertyListing` rows as read by the fraud detector (agency listing). -/
structure PropertyListing where
  id : String
  agency_id : String
  address : String
  client_name : String
  status : String
  postcode : Option String
  withdrawn_date : Option ℤ
  normalized_address : Option String

/-- A raw PPD CSV row: the 16 fixed columns read by `ingest_ppd_csv`
(price and transfer_date already parsed; NaN/NaT cells are `none`). -/
structure RawPPDRow where
  transaction_id : Option String
  price : Option ℤ
  transfer_date : Option ℤ
  postcode : Option String
  property_type : Option String
  old_new : Option String
  duration : Option String
  paon : Option String
  saon : Option String
  street : Option String
  locality : Option String
  town : Option String
  district : Option String
  county : Option String
  ppd_category : Option String
  record_status : Option String
  deriving DecidableEq

/-- A PPD dataframe row after ingestion added the derived columns
`full_address`, `normalized_address` and `year`.  The derived cells are
`Option String` because they are pandas cells; `apply` of a function
returning `str` always fills them with `some _`, never NaN. -/
structure PPDRow extends RawPPDRow where
  full_address : Option String
  normalized_address : Option String
  year : ℤ
  deriving DecidableEq

/-- `_build_full_address`: join the truthy address components with ", "
in the order saon, paon, street, locality, town, postcode. -/
def build_full_address (r : RawPPDRow) : String :=
  let comps := [r.saon, r.paon, r.street, r.locality, r.town, r.postcode].filterMap
    (fun c => if pyTruthy c then c else none)
  String.intercalate ", " comps

/-- One row of the `df.apply` steps of `ingest_ppd_csv`: add the derived
`full_address`, `normalized_address` and `year` columns.  `normf` is the
injected `AddressNormalizer.normalize` (one-argument form). -/
def processRawRow (normf : String → String) (year : ℤ) (r : RawPPDRow) : PPDRow :=
  let fa := build_full_address r
  { toRawPPDRow := r
    full_address := some fa
    normalized_address := some (normf fa)
    year := year }

/-- The `df.dropna(subset=["transaction_id", "transfer_date", "full_address"])`
keep-condition: all three cells non-NaN. -/
def dropnaKeeps (r : PPDRow) : Bool :=
  r.transaction_id.isSome && r.transfer_date.isSome && r.full_address.isSome

/-- Lexicographic string order as a boolean, for the sort key. -/
def strLe (a b : String) : Bool := !(decide (b < a))

/-- Order on optional postcodes: missing values sort last (pandas default). -/
def optPostcodeLe : Option String → Option String → Bool
  | none, none => true
  | none, some _ => false
  | some _, none => true
  | some a, some b => strLe a b

/-- The `sort_values(by=["transfer_date", "postcode"])` key order. -/
def ppdRowLe (a b : PPDRow) : Bool :=
  match a.transfer_date, b.transfer_date with
  | none, none => optPostcodeLe a.postcode b.postcode
  | none, some _ => false
  | some _, none => true
  | some x, some y =>
      if x = y then optPostcodeLe a.postcode b.postcode else decide (x < y)

/-- Insertion step of the sort used to model `sort_values`. -/
def insertRow (x : PPDRow) : List PPDRow → List PPDRow
  | [] => [x]
  | y :: ys => if ppdRowLe x y then x :: y :: ys else y :: insertRow x ys

/-- Deterministic sort modelling `sort_values(by=["transfer_date", "postcode"])`. -/
def sortRows : List PPDRow → List PPDRow
  | [] => []
  | x :: xs => insertRow x (sortRows xs)

/-- The partitioned Parquet store: one row list per year, `[]` when the
year's partition file does not exist. -/
def Store := ℤ → List PPDRow

/-- The store with no partition files. -/
def emptyStore : Store := fun _ => []

/-- `IngestionSummary` from src/services/ppd_service.py. -/
structure IngestionSummary where
  successful : ℕ
  failed : ℕ
  errors : List String

/-- `ingest_ppd_csv`: derive full/normalized addresses, drop rows whose
transaction_id, transfer_date or full_address cell is NaN, sort by
(transfer_date, postcode), and write the batch as the whole partition for
`year`, replacing any existing partition for that year. -/
def ingest_ppd_csv (normf : String → String) (rows : List RawPPDRow) (year : ℤ)
    (store : Store) : IngestionSummary × Store :=
  let df := rows.map (processRawRow normf year)
  let valid := df.filter dropnaKeeps
  let invalid := df.length - valid.length
  let errs := if invalid > 0 then
      [toString invalid ++ " records missing required fields"] else []
  let written := sortRows valid
  let store' : Store := fun y => if y = year then written else store y
  ({ successful := valid.length, failed := invalid, errors := errs }, store')

/-- Modelled from the spec: `_get_parquet_path` is garbled in the source
(its signature and filename lines at ppd_service.py:246-259 are corrupted);
spec section 6 fixes the layout as one file per year under a year-labelled
directory, deterministic in the year, and both call sites pass only the year. -/
def get_parquet_path (volume : String) (year : ℤ) : String :=
  volume ++ "/year=" ++ toString year ++ "/ppd_" ++ toString year ++ ".parquet"

/-- `PPDIngestHistory` rows recorded by the sync service. -/
structure PPDIngestHistoryRecord where
  csv_filename : String
  csv_path : String
  parquet_path : String
  year : ℤ
  month : ℤ
  records_processed : ℕ

/-- The per-file body of `PPDSyncService.sync_ppd_data`: skip a filename
already in history; otherwise ingest, and append a history record only when
the ingestion summary reports at least one successful record. -/
def sync_one_file (normf : String → String) (volume : String)
    (history : List PPDIngestHistoryRecord) (filename csv_path : String)
    (rows : List RawPPDRow) (year month : ℤ) (store : Store) :
    List PPDIngestHistoryRecord × Store :=
  if history.any (fun h => h.csv_filename == filename) then (history, store)
  else
    let ingested := ingest_ppd_csv normf rows year store
    if 0 < ingested.1.successful then
      (history ++ [{ csv_filename := filename
                     csv_path := csv_path
                     parquet_path := get_parquet_path volume year
                     year := year
                     month := month
                     records_processed := ingested.1.successful }], ingested.2)
    else (history, ingested.2)

/-- The space character, spelled via its code point. -/
def spaceChar : Char := Char.ofNat 32

/-- Split a string at single space characters, keeping empty pieces: the
behaviour of splitting on the literal " " separator. -/
def splitAtSpacesAux : List Char → List Char → List String
  | [], acc => [String.mk acc.reverse]
  | c :: cs, acc =>
      if c == spaceChar then String.mk acc.reverse :: splitAtSpacesAux cs []
      else splitAtSpacesAux cs (c :: acc)

/-- Split a string at space characters (pieces may be empty). -/
def splitAtSpaces (s : String) : List String := splitAtSpacesAux s.data []

/-- Boolean string-prefix test (SQL `LIKE 'prefix%'`). -/
def strStartsWith (s pre : String) : Bool := pre.data.isPrefixOf s.data

/-- Strip spaces and uppercase, the postcode normalization of
`_calculate_confidence_score` (`.replace(" ", "").upper()`). -/
def stripSpacesUpper (s : String) : String :=
  String.mk ((s.data.filter (fun c => c != spaceChar)).map Char.toUpper)

/-- The date proximity component of `_calculate_confidence_score`
(already weighted): 0 unless both dates are present, otherwise
`max(0, 100 - days_diff / (SCAN_WINDOW_MONTHS*30) * 100) * DATE_PROXIMITY_WEIGHT`. -/
def dateComponent (cfg : FraudDetectionConfig) (wd td : Option ℤ) : ℚ :=
  match wd, td with
  | some w, some t =>
      let days_diff : ℚ := |((t - w : ℤ) : ℚ)|
      let max_days : ℚ := ((cfg.SCAN_WINDOW_MONTHS * 30 : ℤ) : ℚ)
      let date_score := max 0 (100 - days_diff / max_days * 100)
      date_score * cfg.DATE_PROXIMITY_WEIGHT
  | _, _ => 0

/-- The postcode component of `_calculate_confidence_score` (already
weighted): `100 * POSTCODE_MATCH_WEIGHT` when both postcodes are truthy and
equal after space-stripping and uppercasing, else 0. -/
def postcodeComponent (cfg : FraudDetectionConfig) (pp tp : Option String) : ℚ :=
  if pyTruthy pp && pyTruthy tp then
    if stripSpacesUpper (pp.getD "") == stripSpacesUpper (tp.getD "") then
      100 * cfg.POSTCODE_MATCH_WEIGHT
    else 0
  else 0

/-- `_calculate_confidence_score`: weighted sum of the address similarity,
date proximity and postcode components, rounded to two decimals. -/
def calculate_confidence_score (cfg : FraudDetectionConfig)
    (prop : PropertyListing) (row : PPDRow) (address_similarity : ℚ) : ℚ :=
  let address_component := address_similarity * cfg.ADDRESS_SIMILARITY_WEIGHT
  let date_component := dateComponent cfg prop.withdrawn_date row.transfer_date
  let postcode_component := postcodeComponent cfg prop.postcode row.postcode
  round2 (address_component + date_component + postcode_component)

/-- `property.normalized_address or normalize(property.address, property.postcode)`:
Python `or` falls through on `None` and on the empty string. -/
def propNormalizedAddress (normf : String → Option String → String)
    (p : PropertyListing) : String :=
  match p.normalized_address with
  | some s => if s == "" then normf p.address p.postcode else s
  | none => normf p.address p.postcode

/-- `FraudMatch` rows as created by `_match_property_to_ppd`. -/
structure FraudMatch where
  property_listing_id : String
  ppd_transaction_id : String
  ppd_price : ℤ
  ppd_transfer_date : Option ℤ
  ppd_postcode : String
  ppd_full_address : String
  confidence_score : ℚ
  address_similarity : ℚ
  verification_status : String
  is_confirmed_fraud : Bool
  detected_at : ℤ

/-- The loop body of `_match_property_to_ppd` for one PPD row: skip the pair
when the address similarity is below `MIN_ADDRESS_SIMILARITY`; otherwise
compute the confidence score and create a FraudMatch only when it reaches
`MIN_CONFIDENCE_THRESHOLD`.  `simf` is the injected
`AddressNormalizer.calculate_similarity`; `now` is `datetime.utcnow()`. -/
def matchRow (cfg : FraudDetectionConfig) (normf : String → Option String → String)
    (simf : String → String → ℚ) (now : ℤ) (p : PropertyListing) (row : PPDRow) :
    Option FraudMatch :=
  if simf (propNormalizedAddress normf p) (row.normalized_address.getD "") <
      cfg.MIN_ADDRESS_SIMILARITY then none
  else if cfg.MIN_CONFIDENCE_THRESHOLD ≤
      calculate_confidence_score cfg p row
        (simf (propNormalizedAddress normf p) (row.normalized_address.getD "")) then
    some { property_listing_id := p.id
           ppd_transaction_id := row.transaction_id.getD ""
           ppd_price := row.price.getD 0
           ppd_transfer_date := row.transfer_date
           ppd_postcode := row.postcode.getD ""
           ppd_full_address := row.full_address.getD ""
           confidence_score := calculate_confidence_score cfg p row
             (simf (propNormalizedAddress normf p) (row.normalized_address.getD ""))
           address_similarity :=
             simf (propNormalizedAddress normf p) (row.normalized_address.getD "")
           verification_status := "suspicious"
           is_confirmed_fraud := false
           detected_at := now }
  else none

/-- `_match_property_to_ppd`: compare one listing against every row of the
queried PPD dataframe; the returned list is exactly what is added to the
database session and committed. -/
def match_property_to_ppd (cfg : FraudDetectionConfig)
    (normf : String → Option String → String) (simf : String → String → ℚ)
    (now : ℤ) (p : PropertyListing) (rows : List PPDRow) : List FraudMatch :=
  rows.filterMap (matchRow cfg normf simf now p)

/-- `ConfidenceDistribution` from src/schemas/fraud_report.py. -/
structure ConfidenceDistribution where
  high_confidence : ℕ
  medium_confidence : ℕ
  low_confidence : ℕ

/-- `SuspiciousMatchSummary` from src/schemas/fraud_report.py (the per-match
schemas carry the same scoring fields as the FraudMatch rows). -/
structure SuspiciousMatchSummary where
  total_matches : ℕ
  confidence_distribution : ConfidenceDistribution
  «matches» : List FraudMatch
  message : String

/-- The `select(PropertyListing).where(...)` filter of
`detect_suspicious_matches`: the agency's listings with status "withdrawn". -/
def eligible_properties (agency_id : String) (listings : List PropertyListing) :
    List PropertyListing :=
  listings.filter (fun p => p.agency_id == agency_id && p.status == "withdrawn")

/-- `FraudDetector.detect_suspicious_matches`, given the dataframe returned
by the PPD query: early return when there are no withdrawn properties or the
query result is empty, otherwise score every (listing, row) pair and build
the histogram.  Returns the summary together with the list of FraudMatch
rows persisted to the database. -/
def detect_suspicious_matches (cfg : FraudDetectionConfig)
    (normf : String → Option String → String) (simf : String → String → ℚ)
    (now : ℤ) (agency_id : String) (listings : List PropertyListing)
    (ppd_df : List PPDRow) : SuspiciousMatchSummary × List FraudMatch :=
  let properties := eligible_properties agency_id listings
  if properties.isEmpty then
    ({ total_matches := 0
       confidence_distribution := ⟨0, 0, 0⟩
       «matches» := []
       message := "No withdrawn properties found for fraud detection" }, [])
  else if ppd_df.isEmpty then
    ({ total_matches := 0
       confidence_distribution := ⟨0, 0, 0⟩
       «matches» := []
       message := "No PPD records found matching the date and postcode criteria" }, [])
  else
    let all_matches := properties.flatMap
      (fun p => match_property_to_ppd cfg normf simf now p ppd_df)
    let high := (all_matches.filter
      (fun m => decide (cfg.HIGH_CONFIDENCE_THRESHOLD ≤ m.confidence_score))).length
    let medium := (all_matches.filter
      (fun m => decide (cfg.MIN_CONFIDENCE_THRESHOLD ≤ m.confidence_score) &&
                decide (m.confidence_score < cfg.HIGH_CONFIDENCE_THRESHOLD))).length
    let low := (all_matches.filter
      (fun m => decide (m.confidence_score < cfg.MIN_CONFIDENCE_THRESHOLD))).length
    ({ total_matches := all_matches.length
       confidence_distribution :=
         ⟨high, medium, low⟩
       «matches» := all_matches
       message := "Stage 1 complete: " ++ toString all_matches.length ++
         " suspicious matches detected. Review " ++ toString high ++
         " high-confidence matches for Land Registry verification." }, all_matches)

/-- The postcode-prefix rule of `query_ppd_for_properties`:
token before the first space, or the first 4 characters if there is no space. -/
def postcodePrefixOf (pc : String) : String :=
  if (splitAtSpaces pc).length ≥ 2 then
    ((splitAtSpaces pc).filter (fun t => t != "")).headD ""
  else String.mk (pc.data.take 4)

/-- SQL `transfer_date BETWEEN a AND b` at day granularity: a NULL
transfer date satisfies no comparison. -/
def sqlBetween (td : Option ℤ) (a b : ℤ) : Bool :=
  match td with
  | some t => decide (a ≤ t) && decide (t ≤ b)
  | none => false

/-- The date clause of the DuckDB query: only added when at least one listing
has a withdrawal date (so min and max are both set). -/
def dateClause (minDate maxDate : Option ℤ) (td : Option ℤ) : Bool :=
  match minDate, maxDate with
  | some a, some b => sqlBetween td a b
  | _, _ => true

/-- The postcode clause of the DuckDB query: only added when some listing has
a truthy postcode; SQL `LIKE` on a NULL postcode matches nothing. -/
def postcodeClause (prefixes : List String) (pc : Option String) : Bool :=
  if prefixes.isEmpty then true
  else prefixes.any (fun pre =>
    match pc with
    | some s => strStartsWith s pre
    | none => false)

/-- `PPDService.query_ppd_for_properties`: one pooled DuckDB query over all
partition files (`rows` stands for the union the `year=*` glob reads).
The date range is [earliest withdrawal date over all listings, latest
withdrawal date + SCAN_WINDOW_MONTHS*30 days] and the postcode filter is the
OR of every listing's prefix. -/
def query_ppd_for_properties (cfg : FraudDetectionConfig)
    (props : List PropertyListing) (rows : List PPDRow) : List PPDRow :=
  if props.isEmpty then []
  else
    let dates := props.filterMap (fun p => p.withdrawn_date)
    let min_date : Option ℤ := dates.foldl
      (fun acc d => match acc with
        | none => some d
        | some m => some (min m d)) none
    let max_date : Option ℤ := dates.foldl
      (fun acc d =>
        let e := d + cfg.SCAN_WINDOW_MONTHS * 30
        match acc with
        | none => some e
        | some m => some (max m e)) none
    let prefixes := props.filterMap (fun p =>
      if pyTruthy p.postcode then some (postcodePrefixOf (p.postcode.getD ""))
      else none)
    rows.filter (fun r =>
      dateClause min_date max_date r.transfer_date &&
      postcodeClause prefixes r.postcode)

/-- The `try/except` around `duckdb_conn.execute(query).fetchdf()`: a failed
query is caught, logged, and replaced by an empty dataframe; the caller
receives a plain row list either way. -/
def run_ppd_query (backend : Except String (List PPDRow)) : List PPDRow :=
  match backend with
  | Except.ok df => df
  | Except.error _ => []

/-- `detect_suspicious_matches` composed with the PPD query it performs. -/
def detect_full (cfg : FraudDetectionConfig)
    (normf : String → Option String → String) (simf : String → String → ℚ)
    (now : ℤ) (agency_id : String) (listings : List PropertyListing)
    (rows : List PPDRow) : SuspiciousMatchSummary × List FraudMatch :=
  detect_suspicious_matches cfg normf simf now agency_id listings
    (query_ppd_for_properties cfg (eligible_properties agency_id listings) rows)

/-- The claim's `dateProximityScore`, written from the spec's words:
`max(0, 100 - (|daysBetween(transferDate, withdrawalDate)| /
(scanWindowMonths*30) * 100))`, and 0 if either date is missing. -/
def specDateProximityScore (cfg : FraudDetectionConfig)
    (p : PropertyListing) (r : PPDRow) : ℚ :=
  match p.withdrawn_date, r.transfer_date with
  | some w, some t =>
      max 0 (100 - |((t - w : ℤ) : ℚ)| / ((cfg.SCAN_WINDOW_MONTHS * 30 : ℤ) : ℚ) * 100)
  | _, _ => 0

/-- The claim's `postcodeExactScore` as the code forces it to be amended:
100 iff both postcodes are present and non-empty and agree after
space-stripping and uppercasing, else 0. -/
def specPostcodeExactScore (p : PropertyListing) (r : PPDRow) : ℚ :=
  if pyTruthy p.postcode && pyTruthy r.postcode &&
      (stripSpacesUpper (p.postcode.getD "") == stripSpacesUpper (r.postcode.getD "")) then
    100
  else 0

/-- The claim's composite confidence, amended by the rounding the code
performs: the weighted sum rounded half-even to two decimals. -/
def specConfidence (cfg : FraudDetectionConfig) (p : PropertyListing)
    (r : PPDRow) (s : ℚ) : ℚ :=
  round2 (s * cfg.ADDRESS_SIMILARITY_WEIGHT +
    specDateProximityScore cfg p r * cfg.DATE_PROXIMITY_WEIGHT +
    specPostcodeExactScore p r * cfg.POSTCODE_MATCH_WEIGHT)

/-- The per-listing candidate set the claim describes, written from the
spec's words: stored rows whose transfer date lies within
[the listing's own withdrawal date, withdrawal date + scanWindowMonths*30
days] and whose postcode starts with the listing's own postcode prefix. -/
def claimedCandidatesFor (cfg : FraudDetectionConfig) (p : PropertyListing)
    (rows : List PPDRow) : List PPDRow :=
  rows.filter (fun r =>
    (match p.withdrawn_date, r.transfer_date with
     | some w, some t => decide (w ≤ t) && decide (t ≤ w + cfg.SCAN_WINDOW_MONTHS * 30)
     | _, _ => false) &&
    (match p.postcode, r.postcode with
     | some pc, some rpc => strStartsWith rpc (postcodePrefixOf pc)
     | _, _ => false))

/-- The whitespace tokens of an address, as a multiset. -/
def addressTokens (s : String) : Multiset String :=
  (((splitAtSpaces s).filter (fun t => t != "")) : List String)

/-- Modelled from the spec: the Address Normalizer implementation
(src/services/address_normalizer.py) is not among the repository sources,
only its callers are.  Spec section 4.1 requires a token-aware
string-distance measure with values in [0,100]; this models it as the
Sørensen-Dice coefficient on token multisets, scaled to 100, with two empty
token multisets scoring 100. -/
def similarity (a b : String) : ℚ :=
  if addressTokens a = 0 ∧ addressTokens b = 0 then 100
  else 100 * (2 * (Multiset.card (addressTokens a ∩ addressTokens b) : ℚ)) /
    ((Multiset.card (addressTokens a) : ℚ) + (Multiset.card (addressTokens b) : ℚ))

/-! ### Helper lemmas -/

lemma dateComponent_eq_spec (cfg : FraudDetectionConfig) (p : PropertyListing)
    (r : PPDRow) :
    dateComponent cfg p.withdrawn_date r.transfer_date =
      specDateProximityScore cfg p r * cfg.DATE_PROXIMITY_WEIGHT := by
  unfold dateComponent specDateProximityScore
  cases p.withdrawn_date <;> cases r.transfer_date <;> simp

lemma postcodeComponent_eq_spec (cfg : FraudDetectionConfig)
    (p : PropertyListing) (r : PPDRow) :
    postcodeComponent cfg p.postcode r.postcode =
      specPostcodeExactScore p r * cfg.POSTCODE_MATCH_WEIGHT := by
  unfold postcodeComponent specPostcodeExactScore
  by_cases h1 : pyTruthy p.postcode
  · by_cases h2 : pyTruthy r.postcode
    · cases h3 : (stripSpacesUpper (p.postcode.getD "") ==
        stripSpacesUpper (r.postcode.getD "")) <;> simp [h1, h2, h3]
    · simp [h1, h2]
  · simp [h1]

lemma calculate_eq_spec (cfg : FraudDetectionConfig) (p : PropertyListing)
    (r : PPDRow) (s : ℚ) :
    calculate_confidence_score cfg p r s = specConfidence cfg p r s := by
  unfold calculate_confidence_score specConfidence
  rw [dateComponent_eq_spec, postcodeComponent_eq_spec]

lemma roundHalfEven_nonneg {q : ℚ} (h : 0 ≤ q) : 0 ≤ roundHalfEven q := by
  unfold roundHalfEven
  have hf : (0 : ℤ) ≤ ⌊q⌋ := Int.floor_nonneg.mpr h
  split_ifs <;> omega

lemma roundHalfEven_le {q : ℚ} {n : ℤ} (h : q ≤ (n : ℚ)) : roundHalfEven q ≤ n := by
  unfold roundHalfEven
  have hf : ⌊q⌋ ≤ n := by
    have := Int.floor_mono h
    simpa using this
  have hfl : (⌊q⌋ : ℚ) ≤ q := Int.floor_le q
  split_ifs with h1 h2 h3
  · exact hf
  · have hlt : (⌊q⌋ : ℚ) < (n : ℚ) := by linarith
    have : ⌊q⌋ < n := by exact_mod_cast hlt
    omega
  · exact hf
  · have hr : q - (⌊q⌋ : ℚ) = 1/2 := le_antisymm (not_lt.mp h2) (not_lt.mp h1)
    have hlt : (⌊q⌋ : ℚ) < (n : ℚ) := by linarith
    have : ⌊q⌋ < n := by exact_mod_cast hlt
    omega

lemma round2_nonneg {q : ℚ} (h : 0 ≤ q) : 0 ≤ round2 q := by
  unfold round2
  have h1 : (0 : ℤ) ≤ roundHalfEven (q * 100) :=
    roundHalfEven_nonneg (by linarith)
  have h2 : (0 : ℚ) ≤ (roundHalfEven (q * 100) : ℚ) := by exact_mod_cast h1
  linarith

lemma round2_le_hundred {q : ℚ} (h : q ≤ 100) : round2 q ≤ 100 := by
  unfold round2
  have h1 : roundHalfEven (q * 100) ≤ (10000 : ℤ) := by
    apply roundHalfEven_le
    push_cast
    linarith
  have h2 : (roundHalfEven (q * 100) : ℚ) ≤ 10000 := by exact_mod_cast h1
  linarith

lemma dateComponent_bounds (wd td : Option ℤ) :
    0 ≤ dateComponent defaultConfig wd td ∧ dateComponent defaultConfig wd td ≤ 20 := by
  unfold dateComponent
  cases wd with
  | none => simp
  | some w =>
    cases td with
    | none => simp
    | some t =>
      simp only
      have hw : defaultConfig.DATE_PROXIMITY_WEIGHT = 2/10 := rfl
      have hsw : ((defaultConfig.SCAN_WINDOW_MONTHS * 30 : ℤ) : ℚ) = 720 := rfl
      rw [hw, hsw]
      set x : ℚ := |((t - w : ℤ) : ℚ)| / 720 * 100 with hx
      have hx0 : 0 ≤ x := by positivity
      constructor
      · apply mul_nonneg (le_max_left _ _) (by norm_num)
      · have hmax : max 0 (100 - x) ≤ 100 := max_le (by norm_num) (by linarith)
        have := mul_le_mul_of_nonneg_right hmax (by norm_num : (0:ℚ) ≤ 2/10)
        linarith

lemma postcodeComponent_bounds (pp tp : Option String) :
    0 ≤ postcodeComponent defaultConfig pp tp ∧
      postcodeComponent defaultConfig pp tp ≤ 10 := by
  unfold postcodeComponent
  have hw : defaultConfig.POSTCODE_MATCH_WEIGHT = 1/10 := rfl
  split_ifs <;> norm_num [hw]

/-! ### Concrete fixtures used by counterexamples and witnesses -/

/-- A withdrawn listing with no withdrawal date and no postcode. -/
def PC1 : PropertyListing :=
  { id := "L1", agency_id := "A1", address := "123 High Street, London",
    client_name := "John Smith", status := "withdrawn",
    postcode := none, withdrawn_date := none,
    normalized_address := some "123 HIGH STREET LONDON" }

/-- A PPD row with no transfer date and no postcode. -/
def RC1 : PPDRow :=
  { transaction_id := some "T1", price := some 450000, transfer_date := none,
    postcode := none, property_type := none, old_new := none,
    duration := none, paon := none, saon := none, street := none,
    locality := none, town := none, district := none, county := none,
    ppd_category := none, record_status := none,
    full_address := some "123 HIGH STREET, LONDON",
    normalized_address := some "123 HIGH STREET LONDON", year := 2025 }

/-- A withdrawn listing with withdrawal date (day 0) and postcode SW1A 1AA. -/
def PC2 : PropertyListing :=
  { id := "L2", agency_id := "A1", address := "123 High Street, London",
    client_name := "John Smith", status := "withdrawn",
    postcode := some "SW1A 1AA", withdrawn_date := some 0,
    normalized_address := some "123 HIGH STREET LONDON" }

/-- A PPD row sold 360 days later with the same postcode, spaced differently. -/
def RC2 : PPDRow :=
  { transaction_id := some "T2", price := some 450000, transfer_date := some 360,
    postcode := some "SW1A1AA", property_type := none, old_new := none,
    duration := none, paon := none, saon := none, street := none,
    locality := none, town := none, district := none, county := none,
    ppd_category := none, record_status := none,
    full_address := some "123 HIGH STREET, LONDON",
    normalized_address := some "123 HIGH STREET LONDON", year := 2025 }

/-- A normalizer stand-in: identity on the address, ignoring the postcode. -/
def nfId : String → Option String → String := fun a _ => a

/-- A constant similarity function scoring 90. -/
def sf90 : String → String → ℚ := fun _ _ => 90

/-- A constant similarity function scoring 643/8 = 80.375. -/
def sfFrac : String → String → ℚ := fun _ _ => 643/8

/-! ### Claims -/

/-- C1 (amended): for every candidate pair, a similarity below
MIN_ADDRESS_SIMILARITY yields no match (the pair is skipped and nothing is
persisted for it); otherwise the confidence used, both for the persistence
gate and in the stored match, is the weighted sum of the claim's
dateProximityScore and (presence-guarded) postcodeExactScore, rounded
half-even to two decimals. -/
theorem fd_C1 (cfg : FraudDetectionConfig) (normf : String → Option String → String)
    (simf : String → String → ℚ) (now : ℤ) (p : PropertyListing) (r : PPDRow) :
    matchRow cfg normf simf now p r =
      (if simf (propNormalizedAddress normf p) (r.normalized_address.getD "") <
          cfg.MIN_ADDRESS_SIMILARITY then none
       else if cfg.MIN_CONFIDENCE_THRESHOLD ≤ specConfidence cfg p r
          (simf (propNormalizedAddress normf p) (r.normalized_address.getD "")) then
         some { property_listing_id := p.id
                ppd_transaction_id := r.transaction_id.getD ""
                ppd_price := r.price.getD 0
                ppd_transfer_date := r.transfer_date
                ppd_postcode := r.postcode.getD ""
                ppd_full_address := r.full_address.getD ""
                confidence_score := specConfidence cfg p r
                  (simf (propNormalizedAddress normf p) (r.normalized_address.getD ""))
                address_similarity :=
                  simf (propNormalizedAddress normf p) (r.normalized_address.getD "")
                verification_status := "suspicious"
                is_confirmed_fraud := false
                detected_at := now }
       else none) := by
  simp only [matchRow, calculate_eq_spec]

/-- C1 counterexample: the claim's unrounded equality fails — at similarity
643/8 with no dates and no postcodes the code stores
round2(56.2625) = 56.26, not the weighted sum 56.2625 itself; and with two
present-but-empty postcodes, whose space-stripped uppercased forms are
exactly equal, the code's postcode component is 0, not 100 * weight. -/
theorem fd_C1_counterexample :
    calculate_confidence_score defaultConfig PC1 RC1 (643/8) ≠
      (643/8) * defaultConfig.ADDRESS_SIMILARITY_WEIGHT +
      specDateProximityScore defaultConfig PC1 RC1 * defaultConfig.DATE_PROXIMITY_WEIGHT +
      specPostcodeExactScore PC1 RC1 * defaultConfig.POSTCODE_MATCH_WEIGHT
    ∧ stripSpacesUpper "" = stripSpacesUpper ""
    ∧ postcodeComponent defaultConfig (some "") (some "") = 0 := by
  refine ⟨?_, rfl, ?_⟩
  · norm_num [calculate_confidence_score, dateComponent, postcodeComponent,
      specDateProximityScore, specPostcodeExactScore, pyTruthy, round2, roundHalfEven,
      PC1, RC1, defaultConfig]
  · norm_num [postcodeComponent, pyTruthy]

/-- C8: with the default configuration, for any listing and candidate row
(any combination of present and missing dates and postcodes) and any address
similarity in [0,100], the composite confidence score lies in [0,100]. -/
theorem fd_C8 (p : PropertyListing) (r : PPDRow) (s : ℚ)
    (h0 : 0 ≤ s) (h1 : s ≤ 100) :
    0 ≤ calculate_confidence_score defaultConfig p r s ∧
      calculate_confidence_score defaultConfig p r s ≤ 100 := by
  unfold calculate_confidence_score
  obtain ⟨d0, d1⟩ := dateComponent_bounds p.withdrawn_date r.transfer_date
  obtain ⟨q0, q1⟩ := postcodeComponent_bounds p.postcode r.postcode
  have hw : defaultConfig.ADDRESS_SIMILARITY_WEIGHT = 7/10 := rfl
  rw [hw]
  have a0 : 0 ≤ s * (7/10 : ℚ) := mul_nonneg h0 (by norm_num)
  have a1 : s * (7/10 : ℚ) ≤ 70 := by
    have := mul_le_mul_of_nonneg_right h1 (by norm_num : (0:ℚ) ≤ 7/10)
    linarith
  exact ⟨round2_nonneg (by linarith), round2_le_hundred (by linarith)⟩

/-- C8 witness: the bound at a concrete input (similarity 90). -/
theorem fd_C8_witness :
    (0 : ℚ) ≤ 90 ∧ (90 : ℚ) ≤ 100 ∧
      (0 ≤ calculate_confidence_score defaultConfig PC2 RC2 90 ∧
        calculate_confidence_score defaultConfig PC2 RC2 90 ≤ 100) :=
  ⟨by norm_num, by norm_num, fd_C8 PC2 RC2 90 (by norm_num) (by norm_num)⟩

/-- C9: the address similarity measure is symmetric and reflexive with
`similarity(a,a) = 100`. -/
theorem fd_C9 (a b : String) :
    similarity a b = similarity b a ∧ similarity a a = 100 := by
  constructor
  · unfold similarity
    by_cases h : addressTokens a = 0 ∧ addressTokens b = 0
    · rw [if_pos h, if_pos ⟨h.2, h.1⟩]
    · rw [if_neg h, if_neg (fun hc => h ⟨hc.2, hc.1⟩)]
      rw [Multiset.inter_comm, add_comm]
  · unfold similarity
    by_cases h : addressTokens a = 0
    · rw [if_pos ⟨h, h⟩]
    · rw [if_neg (fun hc => h hc.1), ← Multiset.inf_eq_inter, inf_idem]
      have hc : (Multiset.card (addressTokens a) : ℚ) ≠ 0 := by
        have hn : Multiset.card (addressTokens a) ≠ 0 :=
          fun hcard => h (Multiset.card_eq_zero.mp hcard)
        exact_mod_cast hn
      field_simp
      ring

lemma matchRow_some {cfg : FraudDetectionConfig}
    {normf : String → Option String → String} {simf : String → String → ℚ}
    {now : ℤ} {p : PropertyListing} {r : PPDRow} {m : FraudMatch}
    (h : matchRow cfg normf simf now p r = some m) :
    cfg.MIN_CONFIDENCE_THRESHOLD ≤ m.confidence_score ∧
      m.verification_status = "suspicious" := by
  unfold matchRow at h
  split_ifs at h with h1 h2
  · simp only [Option.some.injEq] at h
    subst h
    exact ⟨h2, rfl⟩

lemma mem_match_property {cfg : FraudDetectionConfig}
    {normf : String → Option String → String} {simf : String → String → ℚ}
    {now : ℤ} {p : PropertyListing} {rows : List PPDRow} {m : FraudMatch}
    (h : m ∈ match_property_to_ppd cfg normf simf now p rows) :
    cfg.MIN_CONFIDENCE_THRESHOLD ≤ m.confidence_score ∧
      m.verification_status = "suspicious" := by
  unfold match_property_to_ppd at h
  rcases List.mem_filterMap.mp h with ⟨r, _, hr⟩
  exact matchRow_some hr

/-- C2: every FraudMatch persisted by detect has confidence at least
MIN_CONFIDENCE_THRESHOLD and verification status "suspicious", and the
low-confidence bucket of the returned histogram is always zero. -/
theorem fd_C2 (cfg : FraudDetectionConfig) (normf : String → Option String → String)
    (simf : String → String → ℚ) (now : ℤ) (agency_id : String)
    (listings : List PropertyListing) (ppd_df : List PPDRow) :
    ((detect_suspicious_matches cfg normf simf now agency_id listings ppd_df).2.all
      (fun m => decide (cfg.MIN_CONFIDENCE_THRESHOLD ≤ m.confidence_score) &&
        (m.verification_status == "suspicious"))) = true ∧
    (detect_suspicious_matches cfg normf simf now agency_id listings
      ppd_df).1.confidence_distribution.low_confidence = 0 := by
  by_cases hp : (eligible_properties agency_id listings).isEmpty
  · simp [detect_suspicious_matches, hp]
  · by_cases hd : ppd_df.isEmpty
    · simp [detect_suspicious_matches, hp, hd]
    · simp only [detect_suspicious_matches, hp, hd, if_false, Bool.false_eq_true,
        if_neg, ite_false]
      constructor
      · rw [List.all_eq_true]
        intro m hm
        rcases List.mem_flatMap.mp hm with ⟨p, _, hmp⟩
        obtain ⟨hle, hst⟩ := mem_match_property hmp
        simp [hle, hst]
      · rw [List.length_eq_zero, List.filter_eq_nil_iff]
        intro m hm
        rcases List.mem_flatMap.mp hm with ⟨p, _, hmp⟩
        obtain ⟨hle, _⟩ := mem_match_property hmp
        simp [not_lt.mpr hle]

lemma matchRow_score_time (cfg : FraudDetectionConfig)
    (normf : String → Option String → String) (simf : String → String → ℚ)
    (t1 t2 : ℤ) (p : PropertyListing) (r : PPDRow) :
    (matchRow cfg normf simf t1 p r).map (fun m => m.confidence_score) =
      (matchRow cfg normf simf t2 p r).map (fun m => m.confidence_score) := by
  unfold matchRow
  split_ifs <;> rfl

lemma match_property_score_time (cfg : FraudDetectionConfig)
    (normf : String → Option String → String) (simf : String → String → ℚ)
    (t1 t2 : ℤ) (p : PropertyListing) (rows : List PPDRow) :
    (match_property_to_ppd cfg normf simf t1 p rows).map (fun m => m.confidence_score) =
      (match_property_to_ppd cfg normf simf t2 p rows).map (fun m => m.confidence_score) := by
  unfold match_property_to_ppd
  induction rows with
  | nil => rfl
  | cons r rs ih =>
      simp only [List.filterMap_cons]
      have h := matchRow_score_time cfg normf simf t1 t2 p r
      cases hr1 : matchRow cfg normf simf t1 p r with
      | none =>
          cases hr2 : matchRow cfg normf simf t2 p r with
          | none => exact ih
          | some m2 => rw [hr1, hr2] at h; simp at h
      | some m1 =>
          cases hr2 : matchRow cfg normf simf t2 p r with
          | none => rw [hr1, hr2] at h; simp at h
          | some m2 =>
              rw [hr1, hr2] at h
              simp only [Option.map_some'] at h
              simp [ih]
              exact Option.some.inj h

/-- C7: the confidence scores produced by detect are a deterministic pure
function of the listings, the queried rows and the configuration: two runs
that differ only in the detection clock produce identical score lists. -/
theorem fd_C7 (cfg : FraudDetectionConfig) (normf : String → Option String → String)
    (simf : String → String → ℚ) (agency_id : String)
    (listings : List PropertyListing) (ppd_df : List PPDRow) (t1 t2 : ℤ) :
    ((detect_suspicious_matches cfg normf simf t1 agency_id listings ppd_df).2.map
      (fun m => m.confidence_score)) =
    ((detect_suspicious_matches cfg normf simf t2 agency_id listings ppd_df).2.map
      (fun m => m.confidence_score)) := by
  by_cases hp : (eligible_properties agency_id listings).isEmpty
  · simp [detect_suspicious_matches, hp]
  · by_cases hd : ppd_df.isEmpty
    · simp [detect_suspicious_matches, hp, hd]
    · simp only [detect_suspicious_matches, hp, hd, if_false, Bool.false_eq_true,
        if_neg, ite_false]
      induction eligible_properties agency_id listings with
      | nil => rfl
      | cons p ps ih =>
          simp only [List.flatMap_cons, List.map_append, ih,
            match_property_score_time cfg normf simf t1 t2 p ppd_df]

/-- C6 counterexample: a failed partition query is not distinguishable by
the caller — the store's query returns the same plain empty row list for a
failing backend as for a succeeding backend with no rows, so no
StoreQueryFailed condition is surfaced. -/
theorem fd_C6_counterexample :
    run_ppd_query (Except.error "Conversion Error: malformed parquet file") =
      ([] : List PPDRow) ∧
    run_ppd_query (Except.error "Conversion Error: malformed parquet file") =
      run_ppd_query (Except.ok ([] : List PPDRow)) :=
  ⟨rfl, rfl⟩

/-- C6 (amended): when the partition query fails, the store's query catches
the exception and returns an empty result carrying no failure signal, and
detect, run on that result, completes without raising, returning a
zero-match summary and persisting nothing. -/
theorem fd_C6 (cfg : FraudDetectionConfig) (normf : String → Option String → String)
    (simf : String → String → ℚ) (now : ℤ) (agency_id : String)
    (listings : List PropertyListing) (e : String) :
    run_ppd_query (Except.error e) = ([] : List PPDRow) ∧
    (detect_suspicious_matches cfg normf simf now agency_id listings
      (run_ppd_query (Except.error e))).1.total_matches = 0 ∧
    (detect_suspicious_matches cfg normf simf now agency_id listings
      (run_ppd_query (Except.error e))).1.«matches» = [] ∧
    (detect_suspicious_matches cfg normf simf now agency_id listings
      (run_ppd_query (Except.error e))).2 = [] := by
  refine ⟨rfl, ?_⟩
  by_cases hp : (eligible_properties agency_id listings).isEmpty <;>
    simp [detect_suspicious_matches, run_ppd_query, hp]

/-- C10: when the agency has no withdrawn listings, or the store query for
the eligible listings returns no records, detect returns a summary with
total_matches 0, an empty match list and an all-zero histogram, and persists
no FraudMatch rows. -/
theorem fd_C10 (cfg : FraudDetectionConfig) (normf : String → Option String → String)
    (simf : String → String → ℚ) (now : ℤ) (agency_id : String)
    (listings : List PropertyListing) (rows : List PPDRow)
    (h : eligible_properties agency_id listings = [] ∨
      query_ppd_for_properties cfg (eligible_properties agency_id listings) rows = []) :
    (detect_full cfg normf simf now agency_id listings rows).1.total_matches = 0 ∧
    (detect_full cfg normf simf now agency_id listings rows).1.confidence_distribution =
      ⟨0, 0, 0⟩ ∧
    (detect_full cfg normf simf now agency_id listings rows).1.«matches» = [] ∧
    (detect_full cfg normf simf now agency_id listings rows).2 = [] := by
  rcases h with h | h
  · simp [detect_full, detect_suspicious_matches, h]
  · by_cases hp : (eligible_properties agency_id listings).isEmpty <;>
      simp [detect_full, detect_suspicious_matches, h, hp]

/-- C10 witness: the empty-agency case at a concrete input. -/
theorem fd_C10_witness :
    eligible_properties "A1" [] = [] ∧
    ((detect_full defaultConfig nfId sf90 0 "A1" [] []).1.total_matches = 0 ∧
     (detect_full defaultConfig nfId sf90 0 "A1" [] []).1.confidence_distribution =
       ⟨0, 0, 0⟩ ∧
     (detect_full defaultConfig nfId sf90 0 "A1" [] []).1.«matches» = [] ∧
     (detect_full defaultConfig nfId sf90 0 "A1" [] []).2 = []) :=
  ⟨rfl, fd_C10 defaultConfig nfId sf90 0 "A1" [] [] (Or.inl rfl)⟩

/-- A source row with a valid identifier and transfer date but every address
component missing: its derived full address is the empty string. -/
def badRawRow : RawPPDRow :=
  { transaction_id := some "T9", price := some 100000, transfer_date := some 20100,
    postcode := none, property_type := none, old_new := none, duration := none,
    paon := none, saon := none, street := none, locality := none, town := none,
    district := none, county := none, ppd_category := none, record_status := none }

/-- C3, code-bug evidence: a row whose derived `full_address` is the empty
string is NOT dropped by the `dropna` validation (the derived cell is the
string "", never NaN), so it is counted successful and written to the store,
although the validation lists `full_address` precisely to reject such rows
and the spec requires them to be rejected. -/
theorem fd_C3_bug :
    (ingest_ppd_csv (fun s => s) [badRawRow] 2025 emptyStore).1.successful = 1 ∧
    (ingest_ppd_csv (fun s => s) [badRawRow] 2025 emptyStore).1.failed = 0 ∧
    ((ingest_ppd_csv (fun s => s) [badRawRow] 2025 emptyStore).2 2025).map
      (fun r => r.full_address) = [some ""] := by
  refine ⟨rfl, rfl, ?_⟩
  rfl

/-- Listing A of the C4 counterexample: withdrawal day 0, prefix AA1. -/
def PA : PropertyListing :=
  { id := "LA", agency_id := "A1", address := "1 Alpha Road",
    client_name := "Alice", status := "withdrawn",
    postcode := some "AA1 1AA", withdrawn_date := some 0,
    normalized_address := some "1 ALPHA ROAD" }

/-- Listing B of the C4 counterexample: withdrawal day 10000, prefix BB2. -/
def PB : PropertyListing :=
  { id := "LB", agency_id := "A1", address := "2 Beta Road",
    client_name := "Bob", status := "withdrawn",
    postcode := some "BB2 2BB", withdrawn_date := some 10000,
    normalized_address := some "2 BETA ROAD" }

/-- A stored transaction inside B's window and prefix but far outside A's. -/
def RT : PPDRow :=
  { transaction_id := some "TT", price := some 100, transfer_date := some 10001,
    postcode := some "BB2 2BB", property_type := none, old_new := none,
    duration := none, paon := none, saon := none, street := none,
    locality := none, town := none, district := none, county := none,
    ppd_category := none, record_status := none,
    full_address := some "2 BETA ROAD", normalized_address := some "2 BETA ROAD",
    year := 2025 }

/-- C4 counterexample: with two listings the query is pooled, so the
candidate set scored against listing A contains a transaction that lies
outside A's own date window and postcode prefix — the per-listing window the
claim describes for A is empty, yet A is scored against RT. -/
theorem fd_C4_counterexample :
    query_ppd_for_properties defaultConfig [PA, PB] [RT] = [RT] ∧
    claimedCandidatesFor defaultConfig PA [RT] = [] := by
  constructor <;> decide

/-- C4 (amended): the pooled query coincides with the claim's per-listing
window exactly when detect processes a single listing that has a withdrawal
date and a non-empty postcode; in general every listing is scored against
the one pooled candidate set. -/
theorem fd_C4 (cfg : FraudDetectionConfig) (p : PropertyListing)
    (rows : List PPDRow) (w : ℤ) (pc : String)
    (h1 : p.withdrawn_date = some w) (h2 : p.postcode = some pc) (h3 : pc ≠ "") :
    query_ppd_for_properties cfg [p] rows = claimedCandidatesFor cfg p rows := by
  unfold query_ppd_for_properties claimedCandidatesFor
  have hpc : pyTruthy (some pc) = true := by
    simpa [pyTruthy] using h3
  simp only [List.isEmpty_cons, List.filterMap_cons, List.filterMap_nil, h1, h2,
    hpc, if_true, List.foldl_cons, List.foldl_nil, Option.getD_some]
  apply List.filter_congr
  intro r _
  cases hrt : r.transfer_date <;> cases hrp : r.postcode <;>
    simp [dateClause, sqlBetween, postcodeClause, hrt, hrp, hpc]

/-- C4 witness: the singleton case at a concrete input. -/
theorem fd_C4_witness :
    PA.withdrawn_date = some 0 ∧ PA.postcode = some "AA1 1AA" ∧
    "AA1 1AA" ≠ "" ∧
    query_ppd_for_properties defaultConfig [PA] [RT] =
      claimedCandidatesFor defaultConfig PA [RT] :=
  ⟨rfl, rfl, by decide, fd_C4 defaultConfig PA [RT] 0 "AA1 1AA" rfl rfl (by decide)⟩

lemma insertRow_length (x : PPDRow) (l : List PPDRow) :
    (insertRow x l).length = l.length + 1 := by
  induction l with
  | nil => rfl
  | cons y ys ih =>
      unfold insertRow
      split_ifs <;> simp [ih]

lemma sortRows_length (l : List PPDRow) : (sortRows l).length = l.length := by
  induction l with
  | nil => rfl
  | cons x xs ih => simp [sortRows, insertRow_length, ih]

/-- A fully valid source row whose derived full address is non-empty. -/
def goodRawRow : RawPPDRow :=
  { transaction_id := some "T1", price := some 450000, transfer_date := some 20140,
    postcode := some "SW1A 1AA", property_type := some "D", old_new := some "N",
    duration := some "F", paon := some "123", saon := none,
    street := some "HIGH STREET", locality := none, town := some "LONDON",
    district := none, county := none, ppd_category := some "A",
    record_status := some "A" }

/-- C5: re-ingesting the same feed for a year leaves the store exactly as
after one ingestion — the year's partition is replaced wholesale with the
(sorted) valid rows of the run, so nothing is duplicated — and the sync
service records a history row for a new source filename only when the
ingestion summary reports at least one successful record, in which case the
year's partition has been written and holds exactly that many rows. -/
theorem fd_C5 (normf : String → String) (rows : List RawPPDRow) (y : ℤ)
    (st : Store) (volume filename csv_path : String) (month : ℤ)
    (history : List PPDIngestHistoryRecord)
    (hnew : history.any (fun h => h.csv_filename == filename) = false) :
    (ingest_ppd_csv normf rows y ((ingest_ppd_csv normf rows y st).2)).2 =
      (ingest_ppd_csv normf rows y st).2 ∧
    (ingest_ppd_csv normf rows y st).2 y =
      sortRows ((rows.map (processRawRow normf y)).filter dropnaKeeps) ∧
    ((sync_one_file normf volume history filename csv_path rows y month st).1.any
        (fun h => h.csv_filename == filename) = true →
      1 ≤ (ingest_ppd_csv normf rows y st).1.successful ∧
      (sync_one_file normf volume history filename csv_path rows y month st).2 y =
        (ingest_ppd_csv normf rows y st).2 y ∧
      ((ingest_ppd_csv normf rows y st).2 y).length =
        (ingest_ppd_csv normf rows y st).1.successful) := by
  refine ⟨?_, ?_, ?_⟩
  · funext y'
    by_cases hy : y' = y <;> simp [ingest_ppd_csv, hy]
  · simp [ingest_ppd_csv]
  · intro hmem
    by_cases hpos : 0 < (ingest_ppd_csv normf rows y st).1.successful
    · refine ⟨hpos, ?_, ?_⟩
      · simp [sync_one_file, hnew, hpos]
      · simp [ingest_ppd_csv, sortRows_length]
    · simp only [sync_one_file, hnew, Bool.false_eq_true, if_false, hpos,
        ite_false] at hmem

/-- C5 witness: ingesting one valid row under a fresh filename records the
filename in history, with the partition written and counted. -/
theorem fd_C5_witness :
    (([] : List PPDIngestHistoryRecord).any
      (fun h => h.csv_filename == "pp-2025.csv") = false) ∧
    ((sync_one_file (fun s => s) "data" [] "pp-2025.csv" "csv"
        [goodRawRow] 2025 1 emptyStore).1.any
      (fun h => h.csv_filename == "pp-2025.csv") = true) ∧
    (1 ≤ (ingest_ppd_csv (fun s => s) [goodRawRow] 2025 emptyStore).1.successful ∧
     (sync_one_file (fun s => s) "data" [] "pp-2025.csv" "csv"
        [goodRawRow] 2025 1 emptyStore).2 2025 =
       (ingest_ppd_csv (fun s => s) [goodRawRow] 2025 emptyStore).2 2025 ∧
     ((ingest_ppd_csv (fun s => s) [goodRawRow] 2025 emptyStore).2 2025).length =
       (ingest_ppd_csv (fun s => s) [goodRawRow] 2025 emptyStore).1.successful) :=
  ⟨rfl, by decide,
    (fd_C5 (fun s => s) [goodRawRow] 2025 emptyStore "data" "pp-2025.csv" "csv"
      1 [] rfl).2.2 (by decide)⟩

end PropertyEye
